import Mathlib

/-!
Verification development for the WorldPopPy repository.

The Python sources under `worldpoppy/` are shallowly embedded below:

* dataset names are embedded as `List Char` (Python `str`);
* `re.compile(r'_\d{4}').findall` is embedded as `scanTokens` (the
  left-to-right, non-overlapping scan of the `re` module);
* `str.replace(old, '')` is embedded as `removeTok`;
* the pandas manifest `DataFrame` is embedded as a `List Entry`, with the
  derived columns (`is_annual`, `product_name`, `year`, `remote_fname`)
  computed exactly as in `build_global_manifest`;
* raised `ValueError`s are embedded as `Except` errors whose constructors
  stand for the distinct `raise` sites of the source.

`datetime.now().year` is passed around explicitly as a parameter `now`.
-/

deriving instance DecidableEq for Except

namespace WorldPoppy

/-- One decimal digit rendered as a character, as Python `str(int)` does
digit by digit. -/
def digitChar : Nat → Char
  | 0 => '0' | 1 => '1' | 2 => '2' | 3 => '3' | 4 => '4'
  | 5 => '5' | 6 => '6' | 7 => '7' | 8 => '8' | _ => '9'

/-- Numeric value of a digit character (`int` applied to one char). -/
def digitVal (c : Char) : Nat := c.toNat - 48

/-- Python `int` applied to a string of digit characters. -/
def parseDigits (l : List Char) : Nat := l.foldl (fun n c => n * 10 + digitVal c) 0

/-- The four decimal digits of a year `2000 ≤ y ≤ 9999`, i.e. the characters
of Python `f'{year}'` for the years accepted by `extract_year`. -/
def yearChars (y : Nat) : List Char :=
  [digitChar (y / 1000 % 10), digitChar (y / 100 % 10), digitChar (y / 10 % 10), digitChar (y % 10)]

/-- Does the regex `_\d{4}` (module constant `_year_pattern` in
`manifest.py`) match at the head of the list? -/
def tokenAt : List Char → Bool
  | c :: d1 :: d2 :: d3 :: d4 :: _ =>
    c == '_' && d1.isDigit && d2.isDigit && d3.isDigit && d4.isDigit
  | _ => false

/-- The year denoted by the `_\d{4}` match at the head of the list
(`int(matched[1:])` in `extract_year`). -/
def tokenYearAt (l : List Char) : Nat := parseDigits ((l.drop 1).take 4)

/-- Model of `re.findall` for the pattern `_\d{4}`: scan left to right; at each
position try to match; on a match, emit the five matched characters and
resume after them.  The second argument counts characters still to skip
after a match (4 digits), which keeps the recursion structural. -/
def scanTokens : List Char → Nat → List (List Char)
  | [], _ => []
  | _ :: rest, Nat.succ k => scanTokens rest k
  | l@(_ :: rest), 0 =>
    if tokenAt l then l.take 5 :: scanTokens rest 4 else scanTokens rest 0

/-- Number of positions of `l` at which `_\d{4}` matches.  Because a match
is an underscore followed by digits, matches can never overlap, and this
position count agrees with the length of the `re.findall` result
(`scan_length_eq_tokCount` below). -/
def tokCount (l : List Char) : Nat :=
  (List.range l.length).countP fun p => tokenAt (l.drop p)

/-- Number of positions of `l` carrying a *plausible* year token in the
sense of the specification: a substring matching `_YYYY` whose year lies
between `FIRST_YEAR` and the current calendar year. -/
def plausTokCount (now : Nat) (l : List Char) : Nat :=
  (List.range l.length).countP fun p =>
    tokenAt (l.drop p) && decide (2000 ≤ tokenYearAt (l.drop p)) &&
      decide (tokenYearAt (l.drop p) ≤ now)

/-- Constant `FIRST_YEAR` from `manifest.py`. -/
def firstYear : Nat := 2000

/-- Function `extract_year` from `manifest.py`: `_year_pattern.findall(dataset_name)`
must produce exactly one match, whose year must lie in
`[FIRST_YEAR, datetime.now().year]`; otherwise `ValueError`. -/
def extractYear (now : Nat) (name : List Char) : Except Unit Nat :=
  match scanTokens name 0 with
  | [t] =>
    let y := parseDigits (t.drop 1)
    if y < firstYear ∨ now < y then .error () else .ok y
  | _ => .error ()

/-- Function `_looks_like_annual_name` from `manifest.py`: `True` iff `extract_year`
does not raise. -/
def looksAnnual (now : Nat) (name : List Char) : Bool :=
  match extractYear now name with
  | .ok _ => true
  | .error _ => false

/-- Python `s.replace(pat, '')`: remove every (left-to-right,
non-overlapping) occurrence of `pat`.  The `Nat` argument counts characters
of a match still to be dropped, keeping the recursion structural; callers
pass `0`. -/
def removeTok (pat : List Char) : List Char → Nat → List Char
  | [], _ => []
  | _ :: rest, Nat.succ k => removeTok pat rest k
  | l@(c :: rest), 0 =>
    if pat.isPrefixOf l then removeTok pat rest (pat.length - 1)
    else c :: removeTok pat rest 0

/-- Function `_strip_year` from `manifest.py`: extract the year (propagating its
`ValueError`), then remove every occurrence of `f'_{year}'`. -/
def stripYear (now : Nat) (name : List Char) : Except Unit (List Char) :=
  match extractYear now name with
  | .error e => .error e
  | .ok y => .ok (removeTok ('_' :: yearChars y) name 0)

theorem digit_ne_underscore {c : Char} (h : c.isDigit = true) : c ≠ '_' := by
  intro he; subst he; exact absurd h (by decide)

theorem tokenAt_iff (l : List Char) :
    tokenAt l = true ↔ ∃ d1 d2 d3 d4 t, l = '_' :: d1 :: d2 :: d3 :: d4 :: t ∧
      d1.isDigit = true ∧ d2.isDigit = true ∧ d3.isDigit = true ∧ d4.isDigit = true := by
  rcases l with _ | ⟨c, _ | ⟨d1, _ | ⟨d2, _ | ⟨d3, _ | ⟨d4, t⟩⟩⟩⟩⟩
  case nil => simp [tokenAt]
  case cons.nil => simp [tokenAt]
  case cons.cons.nil => simp [tokenAt]
  case cons.cons.cons.nil => simp [tokenAt]
  case cons.cons.cons.cons.nil => simp [tokenAt]
  constructor
  · intro h
    simp only [tokenAt, Bool.and_eq_true, beq_iff_eq] at h
    obtain ⟨⟨⟨⟨hc, h1⟩, h2⟩, h3⟩, h4⟩ := h
    exact ⟨d1, d2, d3, d4, t, by simp [hc], h1, h2, h3, h4⟩
  · rintro ⟨e1, e2, e3, e4, t', heq, h1, h2, h3, h4⟩
    obtain ⟨hc, he1, he2, he3, he4, ht⟩ := by simpa using heq
    subst hc he1 he2 he3 he4 ht
    simp [tokenAt, h1, h2, h3, h4]

theorem tokenAt_cons_false_of_digit {c : Char} (h : c.isDigit = true) (l : List Char) :
    tokenAt (c :: l) = false := by
  have hne : (c == '_') = false := beq_eq_false_iff_ne.mpr (digit_ne_underscore h)
  rcases l with _ | ⟨d1, _ | ⟨d2, _ | ⟨d3, _ | ⟨d4, t⟩⟩⟩⟩ <;> simp [tokenAt, hne]

theorem tokCount_nil : tokCount [] = 0 := rfl

theorem tokCount_cons (c : Char) (l : List Char) :
    tokCount (c :: l) = tokCount l + (if tokenAt (c :: l) then 1 else 0) := by
  unfold tokCount
  rw [List.length_cons, List.range_succ_eq_map, List.countP_cons, List.countP_map]
  simp [Function.comp_def]

theorem tokCount_cons_of_not (c : Char) (l : List Char) (h : tokenAt (c :: l) = false) :
    tokCount (c :: l) = tokCount l := by
  rw [tokCount_cons, h]; simp

theorem scan_skip_four (a b c d : Char) (r : List Char) :
    scanTokens (a :: b :: c :: d :: r) 4 = scanTokens r 0 := rfl

theorem scan_length_eq_tokCount_aux :
    ∀ n (l : List Char), l.length ≤ n → (scanTokens l 0).length = tokCount l := by
  intro n
  induction n with
  | zero =>
    intro l h
    have : l = [] := List.length_eq_zero.mp (Nat.le_zero.mp h)
    subst this; rfl
  | succ n ih =>
    intro l h
    rcases l with _ | ⟨c, rest⟩
    · rfl
    by_cases ht : tokenAt (c :: rest) = true
    · obtain ⟨d1, d2, d3, d4, t, heq, h1, h2, h3, h4⟩ := (tokenAt_iff _).mp ht
      obtain ⟨hc, hrest⟩ := by simpa using heq
      subst hc hrest
      have hlen : t.length ≤ n := by simp at h; omega
      have hscan : scanTokens ('_' :: d1 :: d2 :: d3 :: d4 :: t) 0 =
          ('_' :: d1 :: d2 :: d3 :: d4 :: t).take 5 :: scanTokens t 0 := by
        rw [scanTokens, if_pos ht, scan_skip_four]
      rw [hscan, tokCount_cons _ _ , if_pos ht,
        tokCount_cons_of_not _ _ (tokenAt_cons_false_of_digit h1 _),
        tokCount_cons_of_not _ _ (tokenAt_cons_false_of_digit h2 _),
        tokCount_cons_of_not _ _ (tokenAt_cons_false_of_digit h3 _),
        tokCount_cons_of_not _ _ (tokenAt_cons_false_of_digit h4 _)]
      simp [ih t hlen]
    · have hf : tokenAt (c :: rest) = false := by simpa using ht
      have hscan : scanTokens (c :: rest) 0 = scanTokens rest 0 := by
        rw [scanTokens, if_neg (by simp [hf])]
      rw [hscan, tokCount_cons_of_not _ _ hf]
      exact ih rest (by simp at h; omega)

theorem scan_length_eq_tokCount (l : List Char) :
    (scanTokens l 0).length = tokCount l :=
  scan_length_eq_tokCount_aux l.length l le_rfl

theorem mem_scan_aux :
    ∀ n (l : List Char) (k : Nat) (t : List Char), l.length ≤ n → t ∈ scanTokens l k →
      ∃ p, tokenAt (l.drop p) = true ∧ (l.drop p).take 5 = t := by
  intro n
  induction n with
  | zero =>
    intro l k t h hm
    have : l = [] := List.length_eq_zero.mp (Nat.le_zero.mp h)
    subst this; simp [scanTokens] at hm
  | succ n ih =>
    intro l k t h hm
    rcases l with _ | ⟨c, rest⟩
    · simp [scanTokens] at hm
    have hlen : rest.length ≤ n := by simp at h; omega
    rcases k with _ | k
    · by_cases ht : tokenAt (c :: rest) = true
      · rw [scanTokens, if_pos ht] at hm
        rcases List.mem_cons.mp hm with hhd | htl
        · exact ⟨0, by simpa [ht] using hhd.symm⟩
        · obtain ⟨p, hp, hv⟩ := ih rest 4 t hlen htl
          exact ⟨p + 1, by simpa using hp, by simpa using hv⟩
      · rw [scanTokens, if_neg ht] at hm
        obtain ⟨p, hp, hv⟩ := ih rest 0 t hlen hm
        exact ⟨p + 1, by simpa using hp, by simpa using hv⟩
    · rw [scanTokens] at hm
      obtain ⟨p, hp, hv⟩ := ih rest k t hlen hm
      exact ⟨p + 1, by simpa using hp, by simpa using hv⟩

theorem mem_scan {l t : List Char} (hm : t ∈ scanTokens l 0) :
    ∃ p, tokenAt (l.drop p) = true ∧ (l.drop p).take 5 = t :=
  mem_scan_aux l.length l 0 t le_rfl hm

theorem lt_length_of_tokenAt_drop {l : List Char} {p : Nat}
    (h : tokenAt (l.drop p) = true) : p < l.length := by
  by_contra hge
  have : l.drop p = [] := List.drop_eq_nil_of_le (by omega)
  rw [this] at h
  exact absurd h (by decide)

theorem tokenAt_unique_pos {l : List Char} (h1 : tokCount l = 1) {p q : Nat}
    (hp : tokenAt (l.drop p) = true) (hq : tokenAt (l.drop q) = true) : p = q := by
  have hcount : ((List.range l.length).filter fun r => tokenAt (l.drop r)).length = 1 := by
    rw [← List.countP_eq_length_filter]; exact h1
  obtain ⟨x, hx⟩ := List.length_eq_one.mp hcount
  have hpm : p ∈ (List.range l.length).filter fun r => tokenAt (l.drop r) := by
    simp [List.mem_filter, List.mem_range, lt_length_of_tokenAt_drop hp, hp]
  have hqm : q ∈ (List.range l.length).filter fun r => tokenAt (l.drop r) := by
    simp [List.mem_filter, List.mem_range, lt_length_of_tokenAt_drop hq, hq]
  rw [hx] at hpm hqm
  simp at hpm hqm
  omega

theorem isDigit_digitChar (d : Nat) : (digitChar d).isDigit = true := by
  rcases d with _ | _ | _ | _ | _ | _ | _ | _ | _ | n
  case succ.succ.succ.succ.succ.succ.succ.succ.succ => rfl
  all_goals decide

theorem digitVal_digitChar {d : Nat} (h : d < 10) : digitVal (digitChar d) = d := by
  interval_cases d <;> decide

theorem parse_yearChars {y : Nat} (h : y ≤ 9999) : parseDigits (yearChars y) = y := by
  have h1 : y / 1000 % 10 < 10 := Nat.mod_lt _ (by norm_num)
  have h2 : y / 100 % 10 < 10 := Nat.mod_lt _ (by norm_num)
  have h3 : y / 10 % 10 < 10 := Nat.mod_lt _ (by norm_num)
  have h4 : y % 10 < 10 := Nat.mod_lt _ (by norm_num)
  simp only [parseDigits, yearChars, List.foldl, digitVal_digitChar h1,
    digitVal_digitChar h2, digitVal_digitChar h3, digitVal_digitChar h4]
  omega

theorem tokenYearAt_eq_of_tokenAt {m : List Char} (h : tokenAt m = true) :
    tokenYearAt m = parseDigits ((m.take 5).drop 1) := by
  obtain ⟨d1, d2, d3, d4, t, heq, _⟩ := (tokenAt_iff m).mp h
  subst heq; rfl

theorem extractYear_ok_iff (now : Nat) (l : List Char) (y : Nat) :
    extractYear now l = .ok y ↔
      tokCount l = 1 ∧ ∃ p, tokenAt (l.drop p) = true ∧
        tokenYearAt (l.drop p) = y ∧ firstYear ≤ y ∧ y ≤ now := by
  constructor
  · intro h
    unfold extractYear at h
    rcases hscan : scanTokens l 0 with _ | ⟨t, _ | ⟨t2, ts⟩⟩ <;> rw [hscan] at h
    · simp at h
    · have h' : (if parseDigits (t.drop 1) < firstYear ∨ now < parseDigits (t.drop 1)
          then (Except.error () : Except Unit Nat)
          else .ok (parseDigits (t.drop 1))) = .ok y := h
      by_cases hgate : parseDigits (t.drop 1) < firstYear ∨ now < parseDigits (t.drop 1)
      · rw [if_pos hgate] at h'; simp at h'
      · rw [if_neg hgate] at h'
        have hy : parseDigits (t.drop 1) = y := by simpa using h'
        have hcount : tokCount l = 1 := by
          rw [← scan_length_eq_tokCount, hscan]; rfl
        obtain ⟨p, hp, hv⟩ := mem_scan (l := l) (by rw [hscan]; exact List.mem_singleton.mpr rfl)
        refine ⟨hcount, p, hp, ?_, by omega, by omega⟩
        rw [tokenYearAt_eq_of_tokenAt hp, hv, hy]
    · simp at h
  · rintro ⟨hcount, p, hp, hyear, hlo, hhi⟩
    have hlen : (scanTokens l 0).length = 1 := by rw [scan_length_eq_tokCount]; exact hcount
    obtain ⟨t, hscan⟩ := List.length_eq_one.mp hlen
    obtain ⟨q, hq, hqv⟩ := mem_scan (l := l) (by rw [hscan]; exact List.mem_singleton.mpr rfl)
    have hpq : q = p := tokenAt_unique_pos hcount hq hp
    subst hpq
    have hty : parseDigits (t.drop 1) = y := by
      rw [← hqv, ← tokenYearAt_eq_of_tokenAt hq, hyear]
    unfold extractYear
    rw [hscan]
    show (if parseDigits (t.drop 1) < firstYear ∨ now < parseDigits (t.drop 1)
        then (Except.error () : Except Unit Nat)
        else .ok (parseDigits (t.drop 1))) = .ok y
    rw [hty, if_neg (by omega)]

theorem looksAnnual_iff (now : Nat) (l : List Char) :
    looksAnnual now l = true ↔ ∃ y, extractYear now l = .ok y := by
  unfold looksAnnual
  rcases h : extractYear now l with e | y <;> simp

theorem tokCount_zero_cons {c : Char} {l : List Char} (h : tokCount (c :: l) = 0) :
    tokenAt (c :: l) = false ∧ tokCount l = 0 := by
  rw [tokCount_cons] at h
  by_cases ht : tokenAt (c :: l) = true
  · rw [if_pos ht] at h; omega
  · refine ⟨by simpa using ht, ?_⟩
    rw [if_neg ht] at h; omega

theorem tokenAt_append_year_false {s : List Char} (hne : s ≠ [])
    (hs : tokenAt s = false) (y : Nat) :
    tokenAt (s ++ '_' :: yearChars y) = false := by
  have hud : ('_' : Char).isDigit = false := by decide
  rcases s with _ | ⟨c1, _ | ⟨c2, _ | ⟨c3, _ | ⟨c4, _ | ⟨c5, t⟩⟩⟩⟩⟩
  · exact absurd rfl hne
  · simp [tokenAt, yearChars, hud]
  · simp [tokenAt, yearChars, hud]
  · simp [tokenAt, yearChars, hud]
  · simp [tokenAt, yearChars, hud]
  · simpa [tokenAt] using hs

theorem scan_append_year {y : Nat} :
    ∀ stem : List Char, tokCount stem = 0 →
      scanTokens (stem ++ '_' :: yearChars y) 0 = ['_' :: yearChars y] := by
  intro stem
  induction stem with
  | nil =>
    intro _
    have ht : tokenAt ('_' :: yearChars y) = true := by
      simp [tokenAt, yearChars, isDigit_digitChar]
    rw [List.nil_append, scanTokens, if_pos ht]
    rfl
  | cons c s ih =>
    intro h
    obtain ⟨hf, hs0⟩ := tokCount_zero_cons h
    have hf2 : tokenAt (c :: (s ++ '_' :: yearChars y)) = false := by
      have := tokenAt_append_year_false (s := c :: s) (by simp) hf y
      simpa using this
    rw [List.cons_append, scanTokens, if_neg (by simp [hf2])]
    exact ih hs0

theorem tokenAt_of_year_isPrefixOf {y : Nat} {l : List Char}
    (h : ('_' :: yearChars y).isPrefixOf l = true) : tokenAt l = true := by
  rw [ List.isPrefixOf_iff_prefix] at h
  obtain ⟨t, ht⟩ := h
  subst ht
  simp [tokenAt, yearChars, isDigit_digitChar]

theorem remove_append_year {y : Nat} :
    ∀ stem : List Char, tokCount stem = 0 →
      removeTok ('_' :: yearChars y) (stem ++ '_' :: yearChars y) 0 = stem := by
  intro stem
  induction stem with
  | nil =>
    intro _
    have hpre : ('_' :: yearChars y).isPrefixOf ('_' :: yearChars y) = true := by
      rw [ List.isPrefixOf_iff_prefix]
    rw [List.nil_append, removeTok, if_pos hpre]
    rfl
  | cons c s ih =>
    intro h
    obtain ⟨hf, hs0⟩ := tokCount_zero_cons h
    have hf2 : tokenAt (c :: (s ++ '_' :: yearChars y)) = false := by
      have := tokenAt_append_year_false (s := c :: s) (by simp) hf y
      simpa using this
    have hnp : ('_' :: yearChars y).isPrefixOf (c :: (s ++ '_' :: yearChars y)) = false := by
      by_contra hcon
      have : ('_' :: yearChars y).isPrefixOf (c :: (s ++ '_' :: yearChars y)) = true := by
        simpa using hcon
      exact absurd (tokenAt_of_year_isPrefixOf this) (by simp [hf2])
    rw [List.cons_append, removeTok, if_neg (by simp [hnp])]
    rw [ih hs0]

/-- One row of the raw WorldPop catalog CSV, with the column names assigned
by `build_global_manifest` (lines 132-140 of `manifest.py`). -/
structure RawRow where
  idx : Nat
  countryNumeric : Nat
  iso3 : List Char
  countryName : List Char
  datasetName : List Char
  remotePath : List Char
  notes : List Char
deriving DecidableEq

/-- One row of the cleaned manifest: the raw columns plus the derived
columns `is_annual`, `product_name`, `year` and `remote_fname` computed in
`build_global_manifest` (lines 142-156 of `manifest.py`). -/
structure Entry where
  idx : Nat
  countryNumeric : Nat
  iso3 : List Char
  countryName : List Char
  datasetName : List Char
  remotePath : List Char
  notes : List Char
  isAnnual : Bool
  productName : List Char
  year : Option Nat
  remoteFname : List Char
deriving DecidableEq

/-- The component after the last separator, i.e. Python
`x.split(sep)[-1]`. -/
def afterLastSep (sep : Char) (l : List Char) : List Char :=
  l.foldl (fun acc c => if c = sep then [] else acc ++ [c]) []

/-- Derived-column computation of `build_global_manifest` for one row:
`is_annual` via `_looks_like_annual_name`, `product_name` via `_strip_year`
(for annual rows), `year` via `extract_year` (for annual rows), and
`remote_fname` as the last `/`-component of the remote path. -/
def cleanRow (now : Nat) (r : RawRow) : Entry :=
  match extractYear now r.datasetName with
  | .ok y =>
    { idx := r.idx, countryNumeric := r.countryNumeric, iso3 := r.iso3,
      countryName := r.countryName, datasetName := r.datasetName,
      remotePath := r.remotePath, notes := r.notes,
      isAnnual := true,
      productName := removeTok ('_' :: yearChars y) r.datasetName 0,
      year := some y,
      remoteFname := afterLastSep '/' r.remotePath }
  | .error _ =>
    { idx := r.idx, countryNumeric := r.countryNumeric, iso3 := r.iso3,
      countryName := r.countryName, datasetName := r.datasetName,
      remotePath := r.remotePath, notes := r.notes,
      isAnnual := false,
      productName := r.datasetName,
      year := none,
      remoteFname := afterLastSep '/' r.remotePath }

/-- The cleaned manifest produced by `build_global_manifest` from the raw
catalog rows. -/
def cleanManifest (now : Nat) (rows : List RawRow) : List Entry :=
  rows.map (cleanRow now)

/-- The distinct `ValueError` raise sites of `manifest.py` that user
queries can hit, one constructor per message:

* `integrityDuplicates` — "Bad manifest! There should be no duplicated
  WorldPop datasets at the country level." (`load_global_manifest`);
* `integrityFormat` — "Unexpected file formats in manifest! ..."
  (`load_global_manifest`);
* `unknownCountry codes` — "WorldPop has no data for the following country
  codes: ..." (`_check_isos_exist`), carrying the offending codes;
* `invalidQuery` — "'product_name' should never contain a year identifier.
  For annual data products, please use the separate 'years' argument ..."
  (`_check_product_exists`);
* `unknownProductStatic` — "... is not a static data product in WorldPop."
  (`_check_product_exists`, `years is None` branch);
* `unknownProductAnnual` — "... is not an annual data product in WorldPop."
  (`_check_product_exists`, `years` given branch);
* `incompleteCoverage annual` — "The requested data product ... is not
  available for all requested countries (and years)."
  (`filter_global_manifest`), with `annual` recording which of the two
  messages is used;
* `assertionFailed` — the `assert num_expected == len(filtered_df)` sanity
  check. -/
inductive WpError where
  | integrityDuplicates
  | integrityFormat
  | unknownCountry (codes : List (List Char))
  | invalidQuery
  | unknownProductStatic
  | unknownProductAnnual
  | incompleteCoverage (annual : Bool)
  | assertionFailed
deriving DecidableEq

/-- The file suffix `tif` required of every remote path. -/
def tifSuffix : List Char := "tif".data

/-- Function `load_global_manifest` from `manifest.py`: the cleaned manifest plus
its two integrity checks — no duplicated `(dataset_name, iso3)` pairs, and
the set of components after the last `.` of the remote paths must equal
`{'tif'}` (so an empty manifest also fails). -/
def loadGlobalManifest (now : Nat) (rows : List RawRow) : Except WpError (List Entry) :=
  let mdf := cleanManifest now rows
  if ¬ (mdf.map fun e => (e.datasetName, e.iso3)).Nodup then
    .error .integrityDuplicates
  else if ¬ (mdf ≠ [] ∧ mdf.all fun e => decide (afterLastSep '.' e.remotePath = tifSuffix)) then
    .error .integrityFormat
  else
    .ok mdf

/-- Python `str.upper` on a name. -/
def upperStr (s : List Char) : List Char := s.map Char.toUpper

/-- Helper `get_static_product_names`: product names of the non-annual rows. -/
def staticProductNames (mdf : List Entry) : List (List Char) :=
  (mdf.filter fun e => !e.isAnnual).map Entry.productName

/-- Helper `get_annual_product_names`: product names of the annual rows. -/
def annualProductNames (mdf : List Entry) : List (List Char) :=
  (mdf.filter fun e => e.isAnnual).map Entry.productName

/-- The manifest subset computed in `filter_global_manifest`: rows whose
`iso3` is among the (already upper-cased) requested codes and whose
`product_name` equals the requested product, further restricted to the
requested years when a years list was supplied (a row with `year == None`
never matches a year filter, as with `pandas.Series.isin`). -/
def matchedEntries (mdf : List Entry) (p : List Char) (isosU : List (List Char))
    (years : Option (List Nat)) : List Entry :=
  let base := mdf.filter fun e => decide (e.iso3 ∈ isosU) && decide (e.productName = p)
  match years with
  | none => base
  | some ys => base.filter fun e =>
      match e.year with
      | some y => decide (y ∈ ys)
      | none => false

/-- Quantity `num_expected` in `filter_global_manifest`: `len(iso3_codes)` for a
static query and `len(iso3_codes) * len(years)` for an annual query. -/
def expectedCount (isoCount : Nat) (years : Option (List Nat)) : Nat :=
  match years with
  | none => isoCount
  | some ys => isoCount * ys.length

/-- Function `_check_product_exists` from `manifest.py`: first fail with the
year-identifier message if `extract_year` succeeds on the product name;
then require membership of the category implied by the `years` argument. -/
def checkProductExists (now : Nat) (mdf : List Entry) (p : List Char)
    (years : Option (List Nat)) : Option WpError :=
  match extractYear now p with
  | .ok _ => some .invalidQuery
  | .error _ =>
    match years with
    | none => if p ∈ staticProductNames mdf then none else some .unknownProductStatic
    | some _ => if p ∈ annualProductNames mdf then none else some .unknownProductAnnual

/-- The body of `filter_global_manifest` once the manifest has loaded:
unknown-country check (`_check_isos_exist`), product checks
(`_check_product_exists`), coverage check, and the final `assert`, in
source order.  `isosU` is the already upper-cased code list. -/
def filterChecked (now : Nat) (mdf : List Entry) (p : List Char)
    (isosU : List (List Char)) (years : Option (List Nat)) :
    Except WpError (List Entry) :=
  let unknown := isosU.filter fun i => decide (i ∉ mdf.map Entry.iso3)
  if unknown ≠ [] then .error (.unknownCountry unknown)
  else
    match checkProductExists now mdf p years with
    | some e => .error e
    | none =>
      let filtered := matchedEntries mdf p isosU years
      if filtered.length < expectedCount isosU.length years then
        .error (.incompleteCoverage years.isSome)
      else if expectedCount isosU.length years ≠ filtered.length then
        .error .assertionFailed
      else
        .ok filtered

/-- Function `filter_global_manifest` from `manifest.py`.  A scalar `years` argument
is modelled as a one-element list and a single ISO string as a one-element
code list (the `isinstance` coercions at lines 189-192); the codes are then
upper-cased.  The manifest load (with its integrity checks) is triggered
first, by `get_all_isos` inside `_check_isos_exist`. -/
def filterGlobalManifest (now : Nat) (rows : List RawRow) (p : List Char)
    (iso3Codes : List (List Char)) (years : Option (List Nat)) :
    Except WpError (List Entry) :=
  match loadGlobalManifest now rows with
  | .error e => .error e
  | .ok mdf => filterChecked now mdf p (iso3Codes.map upperStr) years

/-- Catalog row fixture: the annual dataset `ppp_2020` for New Zealand. -/
def rowNZL2020 : RawRow :=
  { idx := 1, countryNumeric := 554, iso3 := "NZL".data,
    countryName := "New Zealand".data, datasetName := "ppp_2020".data,
    remotePath := "GIS/Population/NZL/ppp_2020.tif".data, notes := "pop".data }

/-- Catalog row fixture: the annual dataset `ppp_2021` for New Zealand. -/
def rowNZL2021 : RawRow :=
  { idx := 2, countryNumeric := 554, iso3 := "NZL".data,
    countryName := "New Zealand".data, datasetName := "ppp_2021".data,
    remotePath := "GIS/Population/NZL/ppp_2021.tif".data, notes := "pop".data }

/-- Catalog row fixture: a static dataset for New Zealand. -/
def rowNZLStatic : RawRow :=
  { idx := 3, countryNumeric := 554, iso3 := "NZL".data,
    countryName := "New Zealand".data, datasetName := "srtm_slope_100m".data,
    remotePath := "GIS/Slope/NZL/srtm_slope_100m.tif".data, notes := "slope".data }

/-- Catalog row fixture with the pathological dataset name `_20_202021`:
its single `_\d{4}` token is `_2020` (at offset 3), so the row is annual
with year 2020, and stripping `_2020` yields the product name `_2021`,
which itself parses as a year token. -/
def rowNZLWeird : RawRow :=
  { idx := 4, countryNumeric := 554, iso3 := "NZL".data,
    countryName := "New Zealand".data, datasetName := "_20_202021".data,
    remotePath := "GIS/Weird/NZL/_20_202021.tif".data, notes := "weird".data }

/-- The cleaned entry expected for `rowNZL2020`. -/
def entryNZL2020 : Entry :=
  { idx := 1, countryNumeric := 554,
    iso3 := "NZL".data, countryName := "New Zealand".data,
    datasetName := "ppp_2020".data,
    remotePath := "GIS/Population/NZL/ppp_2020.tif".data, notes := "pop".data,
    isAnnual := true, productName := "ppp".data, year := some 2020,
    remoteFname := "ppp_2020.tif".data }

example : cleanRow 2026 rowNZL2020 = entryNZL2020 := by decide

example : (cleanRow 2026 rowNZLWeird).productName = "_2021".data := by decide

example : filterGlobalManifest 2026 [rowNZL2020, rowNZL2021] ("ppp".data)
    ["NZL".data] (some [2020, 2021]) =
    .ok (cleanManifest 2026 [rowNZL2020, rowNZL2021]) := by decide

example : filterGlobalManifest 2026 [rowNZL2020] ("NZL".data)
    ["ppp_2020".data] (some [2020]) =
    .error (.unknownCountry ["PPP_2020".data]) := by decide

example : filterGlobalManifest 2026 [rowNZL2020] ("ppp".data)
    ["NZL".data] (some []) = .ok [] := by decide

theorem load_ok_inv {now : Nat} {rows : List RawRow} {mdf : List Entry}
    (h : loadGlobalManifest now rows = .ok mdf) :
    mdf = cleanManifest now rows ∧
      (mdf.map fun e => (e.datasetName, e.iso3)).Nodup := by
  simp only [loadGlobalManifest] at h
  split at h
  · exact absurd h (by simp)
  · split at h
    · exact absurd h (by simp)
    · rename_i h1 h2
      have hm : cleanManifest now rows = mdf := by simpa using h
      subst hm
      exact ⟨rfl, not_not.mp h1⟩

theorem filter_eq_of_load_ok {now : Nat} {rows : List RawRow} {mdf : List Entry}
    (h : loadGlobalManifest now rows = .ok mdf) (p : List Char)
    (isos : List (List Char)) (years : Option (List Nat)) :
    filterGlobalManifest now rows p isos years =
      filterChecked now mdf p (isos.map upperStr) years := by
  simp only [filterGlobalManifest, h]

theorem matchedEntries_sublist (mdf : List Entry) (p : List Char)
    (isosU : List (List Char)) (years : Option (List Nat)) :
    (matchedEntries mdf p isosU years).Sublist mdf := by
  unfold matchedEntries
  match years with
  | none => exact List.filter_sublist _
  | some ys => exact (List.filter_sublist _).trans (List.filter_sublist _)

theorem matchedEntries_nodup {now : Nat} {rows : List RawRow} {mdf : List Entry}
    (hload : loadGlobalManifest now rows = .ok mdf) (p : List Char)
    (isosU : List (List Char)) (years : Option (List Nat)) :
    (matchedEntries mdf p isosU years).Nodup := by
  obtain ⟨_, hnd⟩ := load_ok_inv hload
  have hsub := (matchedEntries_sublist mdf p isosU years).map
    fun e => (e.datasetName, e.iso3)
  exact ((hnd.sublist hsub)).of_map

theorem filterChecked_ok_inv {now : Nat} {mdf : List Entry} {p : List Char}
    {isosU : List (List Char)} {years : Option (List Nat)} {out : List Entry}
    (h : filterChecked now mdf p isosU years = .ok out) :
    matchedEntries mdf p isosU years = out ∧
      out.length = expectedCount isosU.length years := by
  simp only [filterChecked] at h
  split at h
  · exact absurd h (by simp)
  split at h
  · exact absurd h (by simp)
  split at h
  · exact absurd h (by simp)
  split at h
  · exact absurd h (by simp)
  rename_i hunk hck hnlt hneq
  have hout : matchedEntries mdf p isosU years = out := by
    simpa using h
  exact ⟨hout, by rw [← hout]; omega⟩

theorem filter_ok_inv {now : Nat} {rows : List RawRow} {p : List Char}
    {isos : List (List Char)} {years : Option (List Nat)} {out : List Entry}
    (h : filterGlobalManifest now rows p isos years = .ok out) :
    out.length = expectedCount isos.length years ∧ out.Nodup := by
  simp only [filterGlobalManifest] at h
  split at h
  · exact absurd h (by simp)
  rename_i mdf hload
  obtain ⟨hout, hlen⟩ := filterChecked_ok_inv h
  constructor
  · rw [hlen, List.length_map]
  · rw [← hout]
    exact matchedEntries_nodup hload p _ years

theorem filterChecked_incomplete {now : Nat} {mdf : List Entry} {p : List Char}
    {isosU : List (List Char)} {years : Option (List Nat)}
    (hisos : ∀ i ∈ isosU, i ∈ mdf.map Entry.iso3)
    (hcheck : checkProductExists now mdf p years = none)
    (hlt : (matchedEntries mdf p isosU years).length <
      expectedCount isosU.length years) :
    filterChecked now mdf p isosU years =
      .error (.incompleteCoverage years.isSome) := by
  have hempty : (isosU.filter fun i => decide (i ∉ mdf.map Entry.iso3)) = [] := by
    rw [List.filter_eq_nil_iff]
    intro a ha
    simpa using hisos a ha
  simp only [filterChecked, hempty]
  rw [if_neg (by simp)]
  split
  · rename_i e heq
    rw [hcheck] at heq
    exact absurd heq (by simp)
  · rw [if_pos hlt]

theorem filter_incomplete {now : Nat} {rows : List RawRow} {p : List Char}
    {isos : List (List Char)} {years : Option (List Nat)} {mdf : List Entry}
    (hload : loadGlobalManifest now rows = .ok mdf)
    (hisos : ∀ i ∈ isos.map upperStr, i ∈ mdf.map Entry.iso3)
    (hcheck : checkProductExists now mdf p years = none)
    (hlt : (matchedEntries mdf p (isos.map upperStr) years).length <
      expectedCount isos.length years) :
    filterGlobalManifest now rows p isos years =
      .error (.incompleteCoverage years.isSome) := by
  rw [filter_eq_of_load_ok hload]
  exact filterChecked_incomplete hisos hcheck
    (by rw [List.length_map]; exact hlt)

theorem check_none_of_static {now : Nat} {mdf : List Entry} {p : List Char}
    (hex : extractYear now p = .error ())
    (hst : p ∈ staticProductNames mdf) :
    checkProductExists now mdf p none = none := by
  unfold checkProductExists
  rw [hex]
  exact if_pos hst

theorem check_none_of_annual {now : Nat} {mdf : List Entry} {p : List Char}
    {ys : List Nat} (hex : extractYear now p = .error ())
    (han : p ∈ annualProductNames mdf) :
    checkProductExists now mdf p (some ys) = none := by
  unfold checkProductExists
  rw [hex]
  exact if_pos han

theorem check_some_of_year {now : Nat} {mdf : List Entry} {p : List Char}
    {y : Nat} (hex : extractYear now p = .ok y)
    (years : Option (List Nat)) :
    checkProductExists now mdf p years = some .invalidQuery := by
  unfold checkProductExists
  rw [hex]

theorem check_static_mismatch {now : Nat} {mdf : List Entry} {p : List Char}
    (hex : extractYear now p = .error ())
    (hst : p ∉ staticProductNames mdf) :
    checkProductExists now mdf p none = some .unknownProductStatic := by
  unfold checkProductExists
  rw [hex]
  exact if_neg hst

theorem check_annual_mismatch {now : Nat} {mdf : List Entry} {p : List Char}
    {ys : List Nat} (hex : extractYear now p = .error ())
    (han : p ∉ annualProductNames mdf) :
    checkProductExists now mdf p (some ys) = some .unknownProductAnnual := by
  unfold checkProductExists
  rw [hex]
  exact if_neg han

theorem filterChecked_error_of_check {now : Nat} {mdf : List Entry}
    {p : List Char} {isosU : List (List Char)} {years : Option (List Nat)}
    {e : WpError} (hisos : ∀ i ∈ isosU, i ∈ mdf.map Entry.iso3)
    (hcheck : checkProductExists now mdf p years = some e) :
    filterChecked now mdf p isosU years = .error e := by
  have hempty : (isosU.filter fun i => decide (i ∉ mdf.map Entry.iso3)) = [] := by
    rw [List.filter_eq_nil_iff]
    intro a ha
    simpa using hisos a ha
  simp only [filterChecked, hempty]
  rw [if_neg (by simp)]
  split
  · rename_i e' heq
    rw [hcheck] at heq
    simp at heq
    rw [heq]
  · rename_i heq
    rw [hcheck] at heq
    exact absurd heq (by simp)

/-- Names bound at module level in `download.py`: its imports (lines
16-29, with `from worldpoppy.config import *` bringing in exactly the
`__all__` of `config.py`) and its own top-level definitions.  The static
method `_build_local_fname` is an attribute of the class
`WorldPopDownloader`, not a module-level name, and Python name resolution
inside a method body does not consult the enclosing class namespace. -/
def downloadModuleScope : List String :=
  ["dataclass", "Path", "ClassVar", "List", "backoff", "httpx",
   "nest_asyncio", "pd", "HTTPError", "pqdm", "tqdm",
   "get_cache_dir", "get_max_concurrency", "filter_global_manifest",
   "WorldPopDownloader", "repair_cache", "purge_cache"]

/-- Attributes of the class `WorldPopDownloader` in `download.py`. -/
def worldPopDownloaderAttrs : List String :=
  ["URL", "__init__", "download", "_download_file", "_build_local_fname"]

/-- Local names bound in the body of `WorldPopDownloader.download` at the
point of the comprehension on line 103 (parameters plus the assignments of
lines 99-102 and the comprehension variable). -/
def downloadLocalScope : List String :=
  ["self", "product_name", "iso3_codes", "years",
   "skip_download_if_exists", "mdf", "data", "tup"]

/-- Python builtins a bare name inside `download` could fall back to. -/
def pythonBuiltins : List String :=
  ["sorted", "zip", "len", "list", "int", "str", "set", "isinstance",
   "open", "print"]

/-- Python name resolution for a bare name on line 103 of `download.py`:
local scope, then module globals, then builtins. -/
def resolvesName (n : String) : Bool :=
  downloadLocalScope.contains n || downloadModuleScope.contains n ||
    pythonBuiltins.contains n

/-- Static method `WorldPopDownloader._build_local_fname`: the local cache file name for
one manifest entry. -/
def buildLocalFname (productName iso3 : List Char) (year : Option Nat) : List Char :=
  match year with
  | none => productName ++ '_' :: iso3 ++ ".tif".data
  | some y => productName ++ '_' :: iso3 ++ '_' :: yearChars y ++ ".tif".data

/-- Outcome of a call to `WorldPopDownloader.download`:
a query-validation error propagated from `filter_global_manifest`, the
`NameError` raised while evaluating line 103, or a normal return. -/
inductive DlOutcome where
  | queryError (e : WpError)
  | nameError
  | returned (paths : List (List Char))
deriving DecidableEq

/-- A `download` call outcome together with the remote raster paths whose
transfer was started. -/
structure DlResult where
  outcome : DlOutcome
  rasterTransfers : List (List Char)
deriving DecidableEq

/-- Method `WorldPopDownloader.download` from `download.py`: repair the cache
(file-system only), resolve the query via `filter_global_manifest`, then
evaluate `[self.directory / build_local_fname(*tup) for tup in data]`
(line 103).  The comprehension body — and with it the lookup of the bare
name `build_local_fname` — runs once per element of `data`: when the
resolved set is empty the name is never looked up, `pqdm` maps over the
empty argument list with no transfer, and `sorted([])` is returned;
when it is nonempty, the first iteration performs the lookup, and only if
the name resolved would the per-file transfers (the `pqdm` stage, lines
109-116) run and the sorted local paths be returned. -/
def downloadModel (now : Nat) (rows : List RawRow) (p : List Char)
    (isos : List (List Char)) (years : Option (List Nat)) : DlResult :=
  match filterGlobalManifest now rows p isos years with
  | .error e => ⟨.queryError e, []⟩
  | .ok mdf =>
    if mdf = [] then
      ⟨.returned [], []⟩
    else if resolvesName "build_local_fname" then
      ⟨.returned ((mdf.map fun e => buildLocalFname e.productName e.iso3 e.year).mergeSort
          fun a b => decide (a ≤ b)),
        mdf.map Entry.remotePath⟩
    else
      ⟨.nameError, []⟩

/-- Outcome of one execution of the body of
`WorldPopDownloader._download_file` for a given file: success, an
`httpx.HTTPError` (the exception class handled by the `backoff` decorator),
or any other exception. -/
inductive Attempt where
  | succeed
  | httpError
  | otherError
deriving DecidableEq

/-- Result of running a `backoff.on_exception`-decorated function against
a scripted sequence of attempt outcomes: it returns after `n` attempts,
raises after `n` attempts, or is still retrying when the script runs out. -/
inductive RetryOutcome where
  | success (attempts : Nat)
  | raised (attempts : Nat)
  | retrying (attempts : Nat)
deriving DecidableEq

/-- Semantics of `backoff.on_exception(backoff.expo, HTTPError, max_tries=m)`:
run the body; an outcome outside the handled exception class propagates at
once; a handled exception is retried (after a backoff delay, irrelevant
here) unless the attempt count has reached `max_tries`; `max_tries = none`
(the library default) never gives up. -/
def backoffOnException (maxTries : Option Nat) : List Attempt → Nat → RetryOutcome
  | [], n => .retrying n
  | .succeed :: _, n => .success (n + 1)
  | .otherError :: _, n => .raised (n + 1)
  | .httpError :: rest, n =>
    match maxTries with
    | some m => if m ≤ n + 1 then .raised (n + 1) else backoffOnException (some m) rest (n + 1)
    | none => backoffOnException none rest (n + 1)

/-- Method `WorldPopDownloader._download_file` as decorated in `download.py` line
121: `@backoff.on_exception(backoff.expo, HTTPError)` — no `max_tries`
argument, so the `max_tries=None` default applies. -/
def downloadFileRetry (attempts : List Attempt) : RetryOutcome :=
  backoffOnException none attempts 0

theorem backoff_none_http_run (k : Nat) :
    ∀ rest n, backoffOnException none (List.replicate k .httpError ++ rest) n =
      backoffOnException none rest (n + k) := by
  induction k with
  | zero => intro rest n; simp
  | succ k ih =>
    intro rest n
    rw [List.replicate_succ, List.cons_append]
    show backoffOnException none (List.replicate k Attempt.httpError ++ rest) (n + 1) = _
    rw [ih rest (n + 1)]
    congr 1
    omega

/-- Local state of the manifest store: the side-car hash file
(`raw_manifest_hash.txt`) and the cleaned manifest file
(`manifest.feather`), each possibly absent. -/
structure ManifestStoreState (Table : Type) where
  localHash : Option Nat
  localTable : Option Table
deriving DecidableEq

/-- The remote side of a manifest refresh: the raw catalog CSV
(`wpgpDatasets.csv`) and the companion hash file (`wpgpDatasets.md5`). -/
structure RemoteCatalog (Raw : Type) where
  rawCsv : Raw
  hashFile : Nat
deriving DecidableEq

/-- Function `build_global_manifest` from `manifest.py` as a state machine over the
two local files.  Parameters: `hashFn` is the MD5 of a raw CSV, `parse` is
`pandas.read_csv` (which can fail on a malformed catalog), `clean` is the
derived-column computation plus `to_feather`.  Steps, in source order:

1. if the cleaned table and the hash file exist, `overwrite` is not set and
   the stored hash equals the fetched remote hash, return with no catalog
   transfer;
2. otherwise download the raw CSV and *immediately* persist its hash
   (`_update_local_manifest_hash`, line 128), before parsing;
3. parse the CSV; a parse failure propagates, leaving the state of step 2;
4. clean and persist the table.

The result pairs the final state with `.ok` on success and `.error` when
the parse raised. -/
def buildGlobalManifest {Raw Table : Type} (hashFn : Raw → Nat)
    (parse : Raw → Except Unit Raw) (clean : Raw → Table) (overwrite : Bool)
    (remote : RemoteCatalog Raw) (s : ManifestStoreState Table) :
    ManifestStoreState Table × Except Unit Unit :=
  if s.localTable.isSome ∧ ¬overwrite ∧ s.localHash = some remote.hashFile then
    (s, .ok ())
  else
    let s1 : ManifestStoreState Table :=
      { localHash := some (hashFn remote.rawCsv), localTable := s.localTable }
    match parse remote.rawCsv with
    | .error _ => (s1, .error ())
    | .ok parsed =>
      ({ localHash := some (hashFn remote.rawCsv), localTable := some (clean parsed) },
        .ok ())

/-- A parse function for concrete refresh scenarios: raw catalog `1` is
malformed and fails to parse, every other catalog parses to itself. -/
def cexParse : Nat → Except Unit Nat := fun n => if n = 1 then .error () else .ok n

/-- The stored hash and stored table describe the same catalog version:
some raw catalog hashes to the stored hash and cleans to the stored table
(absent files are vacuously consistent, as before the first build). -/
def hashMatchesTable {Raw Table : Type} (hashFn : Raw → Nat)
    (parse : Raw → Except Unit Raw) (clean : Raw → Table)
    (s : ManifestStoreState Table) : Prop :=
  match s.localHash, s.localTable with
  | some h, some t => ∃ raw parsed, hashFn raw = h ∧ parse raw = .ok parsed ∧ clean parsed = t
  | some _, none => True
  | none, _ => True

/-- One input raster as seen by `_merge_rasters` in `raster.py`: whether
`rioxarray.open_rasterio` succeeds on it, and its optional `_FillValue`
and `scale_factor` attributes. -/
structure Raster where
  readOk : Bool
  fillValue : Option Int
  scaleFactor : Option Int
deriving DecidableEq

/-- The `ValueError`s raised by `_merge_rasters`: a failed raster read
("Failed to read raster file at ... If you suspect a corrupted cache,
please try to delete the affected file ..."), or mismatched metadata
("Country rasters do not use the same '<attr>'. Try calling this function
again by setting 'mask_and_scale' to True."), carrying the attribute the
message names. -/
inductive MergeError where
  | readError
  | inconsistent (attr : String)
deriving DecidableEq

/-- The attribute name quoted by the fill-value mismatch message. -/
def fillAttr : String := "_FillValue"

/-- The attribute name quoted by the scale-factor mismatch message. -/
def scaleAttr : String := "scale_factor"

/-- The first-seen/compare step of `_merge_rasters` for one attribute:
if the raster carries the attribute and a value was already seen, they
must agree; if it carries it and none was seen, it becomes the seen
value; a raster without the attribute leaves the seen value unchanged.
`none` signals the mismatch `ValueError`. -/
def checkAttr (cur seen : Option Int) : Option (Option Int) :=
  match cur, seen with
  | some v, some w => if v = w then some (some w) else none
  | some v, none => some (some v)
  | none, s => some s

/-- The read-and-validate loop of `_merge_rasters` (lines 320-360 of
`raster.py`): rasters are read in order; a read failure raises at once;
then `_FillValue` and `scale_factor` are each checked against the first
value seen so far. -/
def mergeLoop : List Raster → Option Int → Option Int → Except MergeError Unit
  | [], _, _ => .ok ()
  | r :: rest, fv, sf =>
    if r.readOk = false then .error .readError
    else
      match checkAttr r.fillValue fv with
      | none => .error (.inconsistent fillAttr)
      | some fv' =>
        match checkAttr r.scaleFactor sf with
        | none => .error (.inconsistent scaleAttr)
        | some sf' => mergeLoop rest fv' sf'

/-- Function `_merge_rasters`, starting with no seen attribute values; `.ok` stands
for the subsequent `merge_arrays` + optional clip, which this claim does
not concern. -/
def mergeRasters (rs : List Raster) : Except MergeError Unit :=
  mergeLoop rs none none

/-- Two rasters of the group carry the attribute read off by `f` with
different values. -/
def disagreeOn (f : Raster → Option Int) (rs : List Raster) : Prop :=
  ∃ r ∈ rs, ∃ s ∈ rs, ∃ v w, f r = some v ∧ f s = some w ∧ v ≠ w

theorem checkAttr_none_iff (cur seen : Option Int) :
    checkAttr cur seen = none ↔
      ∃ v w, cur = some v ∧ seen = some w ∧ v ≠ w := by
  rcases cur with _ | v <;> rcases seen with _ | w <;> simp [checkAttr]

theorem checkAttr_some_seen {cur : Option Int} {w : Int} {out : Option Int}
    (h : checkAttr cur (some w) = some out) : out = some w := by
  rcases cur with _ | v
  · simpa [checkAttr] using h.symm
  · simp only [checkAttr] at h
    by_cases hvw : v = w
    · rw [if_pos hvw] at h
      injection h with h
      exact h.symm
    · rw [if_neg hvw] at h
      exact absurd h (by simp)

theorem checkAttr_some_cur {seen : Option Int} {v : Int} {out : Option Int}
    (h : checkAttr (some v) seen = some out) : out = some v := by
  rcases seen with _ | w
  · simp only [checkAttr] at h
    injection h with h
    exact h.symm
  · simp only [checkAttr] at h
    by_cases hvw : v = w
    · rw [if_pos hvw] at h
      injection h with h
      rw [← h, hvw]
    · rw [if_neg hvw] at h
      exact absurd h (by simp)

/-- All attribute values read off by `f` in the group, and the already-seen
value when there is one, agree on a single constant. -/
def agreeFrom (f : Raster → Option Int) (seen : Option Int)
    (rs : List Raster) : Prop :=
  ∃ c : Int, (seen = none ∨ seen = some c) ∧
    ∀ r ∈ rs, ∀ v, f r = some v → v = c

theorem agreeFrom_step {f : Raster → Option Int} {seen : Option Int}
    {r : Raster} {rest : List Raster} (h : agreeFrom f seen (r :: rest)) :
    ∃ out, checkAttr (f r) seen = some out ∧ agreeFrom f out rest := by
  obtain ⟨c, hseen, hall⟩ := h
  have hrest : ∀ s ∈ rest, ∀ v, f s = some v → v = c := fun s hs v hv =>
    hall s (List.mem_cons_of_mem _ hs) v hv
  rcases hfr : f r with _ | v
  · exact ⟨seen, by simp [checkAttr], c, hseen, hrest⟩
  · have hv : v = c := hall r (List.mem_cons_self _ _) v hfr
    rcases hseen with hnone | hsome
    · subst hnone
      exact ⟨some v, by simp [checkAttr], c, Or.inr (by rw [hv]), hrest⟩
    · subst hsome
      exact ⟨some c, by simp [checkAttr, hv], c, Or.inr rfl, hrest⟩

theorem mergeLoop_ok_of_agree :
    ∀ (rs : List Raster) (fv sf : Option Int), (∀ r ∈ rs, r.readOk = true) →
      agreeFrom Raster.fillValue fv rs → agreeFrom Raster.scaleFactor sf rs →
      mergeLoop rs fv sf = .ok () := by
  intro rs
  induction rs with
  | nil => intro fv sf _ _ _; rfl
  | cons r rest ih =>
    intro fv sf hread hfa hsa
    obtain ⟨fv', hfv, hfa'⟩ := agreeFrom_step hfa
    obtain ⟨sf', hsf, hsa'⟩ := agreeFrom_step hsa
    have hr : r.readOk = true := hread r (List.mem_cons_self _ _)
    rw [mergeLoop, if_neg (by simp [hr]), hfv, hsf]
    exact ih fv' sf' (fun s hs => hread s (List.mem_cons_of_mem _ hs)) hfa' hsa'

theorem disagreeOn_of_cons {f : Raster → Option Int} {r : Raster}
    {rest : List Raster} (h : disagreeOn f rest) : disagreeOn f (r :: rest) := by
  obtain ⟨a, ha, b, hb, v, w, hv, hw, hne⟩ := h
  exact ⟨a, List.mem_cons_of_mem _ ha, b, List.mem_cons_of_mem _ hb, v, w, hv, hw, hne⟩

theorem mergeLoop_fill_sound :
    ∀ (rs : List Raster) (fv sf : Option Int),
      mergeLoop rs fv sf = .error (.inconsistent fillAttr) →
      disagreeOn Raster.fillValue rs ∨
        ∃ r ∈ rs, ∃ v w, r.fillValue = some v ∧ fv = some w ∧ v ≠ w := by
  intro rs
  induction rs with
  | nil => intro fv sf h; exact absurd h (by simp [mergeLoop])
  | cons r rest ih =>
    intro fv sf h
    rw [mergeLoop] at h
    by_cases hr : r.readOk = false
    · rw [if_pos hr] at h
      simp at h
    rw [if_neg hr] at h
    rcases hfv : checkAttr r.fillValue fv with _ | fv' <;> rw [hfv] at h
    · obtain ⟨v, w, hv, hw, hne⟩ := (checkAttr_none_iff _ _).mp hfv
      exact Or.inr ⟨r, (List.mem_cons_self _ _), v, w, hv, hw, hne⟩
    rcases hsf : checkAttr r.scaleFactor sf with _ | sf' <;> rw [hsf] at h
    · have : scaleAttr = fillAttr := by simpa using h
      exact absurd this (by decide)
    rcases ih fv' sf' h with hd | ⟨r', hr', v, w, hv, hw', hne⟩
    · exact Or.inl (disagreeOn_of_cons hd)
    · rcases hcur : r.fillValue with _ | v0
      · rw [hcur] at hfv
        have : fv = fv' := by simpa [checkAttr] using hfv
        exact Or.inr ⟨r', List.mem_cons_of_mem _ hr', v, w, hv, by rw [this, hw'], hne⟩
      · have hfv' : fv' = some v0 := checkAttr_some_cur (hcur ▸ hfv)
        rcases fv with _ | u
        · refine Or.inl ⟨r', List.mem_cons_of_mem _ hr', r, (List.mem_cons_self _ _),
            v, v0, hv, hcur, ?_⟩
          rw [hfv'] at hw'
          injection hw' with h2
          intro hc
          exact hne (hc.trans h2)
        · have : fv' = some u := checkAttr_some_seen (hcur ▸ hfv)
          exact Or.inr ⟨r', List.mem_cons_of_mem _ hr', v, w, hv,
            by rw [← this, hw'], hne⟩

theorem mergeLoop_scale_sound :
    ∀ (rs : List Raster) (fv sf : Option Int),
      mergeLoop rs fv sf = .error (.inconsistent scaleAttr) →
      disagreeOn Raster.scaleFactor rs ∨
        ∃ r ∈ rs, ∃ v w, r.scaleFactor = some v ∧ sf = some w ∧ v ≠ w := by
  intro rs
  induction rs with
  | nil => intro fv sf h; exact absurd h (by simp [mergeLoop])
  | cons r rest ih =>
    intro fv sf h
    rw [mergeLoop] at h
    by_cases hr : r.readOk = false
    · rw [if_pos hr] at h
      simp at h
    rw [if_neg hr] at h
    rcases hfv : checkAttr r.fillValue fv with _ | fv' <;> rw [hfv] at h
    · have : fillAttr = scaleAttr := by simpa using h
      exact absurd this (by decide)
    rcases hsf : checkAttr r.scaleFactor sf with _ | sf' <;> rw [hsf] at h
    · obtain ⟨v, w, hv, hw, hne⟩ := (checkAttr_none_iff _ _).mp hsf
      exact Or.inr ⟨r, (List.mem_cons_self _ _), v, w, hv, hw, hne⟩
    rcases ih fv' sf' h with hd | ⟨r', hr', v, w, hv, hw', hne⟩
    · exact Or.inl (disagreeOn_of_cons hd)
    · rcases hcur : r.scaleFactor with _ | v0
      · rw [hcur] at hsf
        have : sf = sf' := by simpa [checkAttr] using hsf
        exact Or.inr ⟨r', List.mem_cons_of_mem _ hr', v, w, hv, by rw [this, hw'], hne⟩
      · have hsf' : sf' = some v0 := checkAttr_some_cur (hcur ▸ hsf)
        rcases sf with _ | u
        · refine Or.inl ⟨r', List.mem_cons_of_mem _ hr', r, (List.mem_cons_self _ _),
            v, v0, hv, hcur, ?_⟩
          rw [hsf'] at hw'
          injection hw' with h2
          intro hc
          exact hne (hc.trans h2)
        · have : sf' = some u := checkAttr_some_seen (hcur ▸ hsf)
          exact Or.inr ⟨r', List.mem_cons_of_mem _ hr', v, w, hv,
            by rw [← this, hw'], hne⟩

theorem mergeLoop_inconsistent_attr :
    ∀ (rs : List Raster) (fv sf : Option Int) (a : String),
      mergeLoop rs fv sf = .error (.inconsistent a) →
      a = fillAttr ∨ a = scaleAttr := by
  intro rs
  induction rs with
  | nil => intro fv sf a h; exact absurd h (by simp [mergeLoop])
  | cons r rest ih =>
    intro fv sf a h
    rw [mergeLoop] at h
    by_cases hr : r.readOk = false
    · rw [if_pos hr] at h
      simp at h
    rw [if_neg hr] at h
    rcases hfv : checkAttr r.fillValue fv with _ | fv' <;> rw [hfv] at h
    · exact Or.inl (by simpa using h.symm)
    rcases hsf : checkAttr r.scaleFactor sf with _ | sf' <;> rw [hsf] at h
    · exact Or.inr (by simpa using h.symm)
    exact ih fv' sf' a h

theorem mergeLoop_forms :
    ∀ (rs : List Raster) (fv sf : Option Int), (∀ r ∈ rs, r.readOk = true) →
      mergeLoop rs fv sf = .ok () ∨
        ∃ a, mergeLoop rs fv sf = .error (.inconsistent a) := by
  intro rs
  induction rs with
  | nil => intro fv sf _; exact Or.inl rfl
  | cons r rest ih =>
    intro fv sf hread
    have hr : r.readOk = true := hread r (List.mem_cons_self _ _)
    rw [mergeLoop, if_neg (by simp [hr])]
    rcases hfv : checkAttr r.fillValue fv with _ | fv'
    · exact Or.inr ⟨fillAttr, rfl⟩
    rcases hsf : checkAttr r.scaleFactor sf with _ | sf'
    · exact Or.inr ⟨scaleAttr, rfl⟩
    exact ih fv' sf' fun s hs => hread s (List.mem_cons_of_mem _ hs)

theorem mergeLoop_ok_sound :
    ∀ (rs : List Raster) (fv sf : Option Int), mergeLoop rs fv sf = .ok () →
      (¬ disagreeOn Raster.fillValue rs ∧
        ∀ r ∈ rs, ∀ v w, r.fillValue = some v → fv = some w → v = w) ∧
      (¬ disagreeOn Raster.scaleFactor rs ∧
        ∀ r ∈ rs, ∀ v w, r.scaleFactor = some v → sf = some w → v = w) := by
  intro rs
  induction rs with
  | nil =>
    intro fv sf _
    refine ⟨⟨?_, by simp⟩, ⟨?_, by simp⟩⟩ <;> rintro ⟨r, hr, _⟩ <;> simp at hr
  | cons r rest ih =>
    intro fv sf h
    rw [mergeLoop] at h
    by_cases hr : r.readOk = false
    · rw [if_pos hr] at h
      simp at h
    rw [if_neg hr] at h
    rcases hfv : checkAttr r.fillValue fv with _ | fv' <;> rw [hfv] at h
    · simp at h
    rcases hsf : checkAttr r.scaleFactor sf with _ | sf' <;> rw [hsf] at h
    · simp at h
    obtain ⟨⟨hfnd, hfcomp⟩, ⟨hsnd, hscomp⟩⟩ := ih fv' sf' h
    have keyF : ∀ v, r.fillValue = some v → fv' = some v := by
      intro v hv
      exact checkAttr_some_cur (hv ▸ hfv)
    have keyS : ∀ v, r.scaleFactor = some v → sf' = some v := by
      intro v hv
      exact checkAttr_some_cur (hv ▸ hsf)
    have propF : ∀ w, fv = some w → fv' = some w := by
      intro w hw
      exact checkAttr_some_seen (hw ▸ hfv)
    have propS : ∀ w, sf = some w → sf' = some w := by
      intro w hw
      exact checkAttr_some_seen (hw ▸ hsf)
    constructor
    · constructor
      · rintro ⟨a, ha, b, hb, v, w, hv, hw, hne⟩
        rcases List.mem_cons.mp ha with rfl | ha' <;>
          rcases List.mem_cons.mp hb with rfl | hb'
        · exact hne (by rw [hv] at hw; injection hw)
        · have h1 : fv' = some v := keyF v hv
          exact hne (hfcomp b hb' w v hw h1).symm
        · have h1 : fv' = some w := keyF w hw
          exact hne (hfcomp a ha' v w hv h1)
        · exact hfnd ⟨a, ha', b, hb', v, w, hv, hw, hne⟩
      · intro s hs v w hv hw
        rcases List.mem_cons.mp hs with rfl | hs'
        · have h1 : fv' = some v := keyF v hv
          have h2 : fv' = some w := propF w hw
          rw [h1] at h2; injection h2
        · exact hfcomp s hs' v w hv (propF w hw)
    · constructor
      · rintro ⟨a, ha, b, hb, v, w, hv, hw, hne⟩
        rcases List.mem_cons.mp ha with rfl | ha' <;>
          rcases List.mem_cons.mp hb with rfl | hb'
        · exact hne (by rw [hv] at hw; injection hw)
        · have h1 : sf' = some v := keyS v hv
          exact hne (hscomp b hb' w v hw h1).symm
        · have h1 : sf' = some w := keyS w hw
          exact hne (hscomp a ha' v w hv h1)
        · exact hsnd ⟨a, ha', b, hb', v, w, hv, hw, hne⟩
      · intro s hs v w hv hw
        rcases List.mem_cons.mp hs with rfl | hs'
        · have h1 : sf' = some v := keyS v hv
          have h2 : sf' = some w := propS w hw
          rw [h1] at h2; injection h2
        · exact hscomp s hs' v w hv (propS w hw)

theorem agreeFrom_none_of_not_disagree {f : Raster → Option Int}
    {rs : List Raster} (h : ¬ disagreeOn f rs) : agreeFrom f none rs := by
  by_cases hex : ∃ r ∈ rs, ∃ v, f r = some v
  · obtain ⟨r0, hr0, v0, hv0⟩ := hex
    refine ⟨v0, Or.inl rfl, fun s hs v hv => ?_⟩
    by_contra hne
    exact h ⟨s, hs, r0, hr0, v, v0, hv, hv0, hne⟩
  · refine ⟨0, Or.inl rfl, fun s hs v hv => absurd ⟨s, hs, v, hv⟩ hex⟩

/-- The parameter names of `WorldPopDownloader.download` (after `self`):
any other keyword in a call raises `TypeError` at the call site. -/
def downloadParams : List String :=
  ["product_name", "iso3_codes", "years", "skip_download_if_exists"]

/-- A Python-level failure of the `wp_raster` call. -/
inductive PyError where
  | typeError
deriving DecidableEq

/-- Function `wp_raster` from `raster.py` for a country-code area of interest: it
always calls `WorldPopDownloader(...).download(product_name, aoi, years,
skip_download_if_exists, dry_run=download_dry_run)` (lines 150-156).  The
call binds the keyword argument `dry_run`; if that name is not among the
parameters of `download`, Python raises `TypeError` before the callee
body runs.  Only on a successful call would the dry-run branch (lines
158-159, returning `None`) or the merge pipeline be reached. -/
def wpRasterModel (now : Nat) (rows : List RawRow) (p : List Char)
    (isos : List (List Char)) (years : Option (List Nat))
    (downloadDryRun : Bool) : Except PyError (Option DlResult) :=
  if ¬ ("dry_run" ∈ downloadParams) then .error .typeError
  else
    let res := downloadModel now rows p isos years
    if downloadDryRun then .ok none else .ok (some res)

theorem extractYear_error_of_static {now : Nat} {rows : List RawRow}
    {mdf : List Entry} {p : List Char}
    (hload : loadGlobalManifest now rows = .ok mdf)
    (hp : p ∈ staticProductNames mdf) : extractYear now p = .error () := by
  obtain ⟨hm, _⟩ := load_ok_inv hload
  subst hm
  simp only [staticProductNames, cleanManifest, List.mem_map, List.mem_filter] at hp
  obtain ⟨e, ⟨he, hann⟩, hpe⟩ := hp
  obtain ⟨r, _, hre⟩ := he
  rcases hex : extractYear now r.datasetName with u | y
  · cases u
    rw [← hpe, ← hre]
    simp [cleanRow, hex]
  · exfalso
    rw [← hre] at hann
    simp [cleanRow, hex] at hann
example : extractYear 2026 ("foo_1999_2020".data) = .error () := by decide
example : extractYear 2026 ("some_dataset_2020".data) = .ok 2020 := by decide
example : stripYear 2026 ("some_dataset_2020_constrained".data) =
    .ok ("some_dataset_constrained".data) := by decide

/-! ### Claim theorems -/

/-- C1, counterexample.  The claim states that a successful resolution
always has size `|countries| × max(1, |years|)`.  The call
`filter_global_manifest('ppp', ['NZL'], years=[])` resolves successfully
(the empty year filter makes `num_expected = 1 * 0 = 0`, so the coverage
check and the assert both pass) and returns an empty set, but the claimed
formula gives `1 * max(1, 0) = 1`. -/
theorem resolve_empty_years_size_mismatch :
    filterGlobalManifest 2026 [rowNZL2020] ("ppp".data) ["NZL".data] (some []) =
      .ok [] ∧
    ([] : List Entry).length ≠
      (["NZL".data] : List (List Char)).length * max 1 ([] : List Nat).length := by
  exact ⟨by decide, by decide⟩

/-- C1, amended: for every query that resolves successfully the returned
set has exactly `|countries| × |years|` entries when a years list is
supplied (so an empty years list yields an empty set, not
`|countries| × max(1,|years|)`) and `|countries|` entries when `years` is
omitted, with no duplicate entries; and whenever the query passes the
country and product validations but fewer manifest rows match than that
product requires, resolution fails with the `IncompleteCoverage` error
instead of returning a partial set. -/
theorem resolve_file_set_size_and_coverage :
    (∀ (now : Nat) (rows : List RawRow) (p : List Char)
        (isos : List (List Char)) (years : Option (List Nat)) (out : List Entry),
      filterGlobalManifest now rows p isos years = .ok out →
        out.length = expectedCount isos.length years ∧ out.Nodup) ∧
    (∀ (now : Nat) (rows : List RawRow) (p : List Char)
        (isos : List (List Char)) (years : Option (List Nat)) (mdf : List Entry),
      loadGlobalManifest now rows = .ok mdf →
      (∀ i ∈ isos.map upperStr, i ∈ mdf.map Entry.iso3) →
      checkProductExists now mdf p years = none →
      (matchedEntries mdf p (isos.map upperStr) years).length <
        expectedCount isos.length years →
      filterGlobalManifest now rows p isos years =
        .error (.incompleteCoverage years.isSome)) :=
  ⟨fun _ _ _ _ _ _ h => filter_ok_inv h,
   fun _ _ _ _ _ _ hload hisos hcheck hlt =>
     filter_incomplete hload hisos hcheck hlt⟩

/-- C1, witness: a concrete two-row catalog where the annual query
`('ppp', ['NZL'], [2020, 2021])` succeeds with `1 × 2` distinct entries,
and the query `('ppp', ['NZL'], [2020, 2099])` passes validation but lacks
one combination and fails with `IncompleteCoverage`. -/
theorem resolve_file_set_size_and_coverage_witness :
    ((cleanManifest 2026 [rowNZL2020, rowNZL2021]).length =
        expectedCount (["NZL".data] : List (List Char)).length (some [2020, 2021]) ∧
      (cleanManifest 2026 [rowNZL2020, rowNZL2021]).Nodup) ∧
    filterGlobalManifest 2026 [rowNZL2020, rowNZL2021] ("ppp".data) ["NZL".data]
        (some [2020, 2099]) = .error (.incompleteCoverage true) := by
  constructor
  · exact resolve_file_set_size_and_coverage.1 2026 [rowNZL2020, rowNZL2021]
      ("ppp".data) ["NZL".data] (some [2020, 2021])
      (cleanManifest 2026 [rowNZL2020, rowNZL2021]) (by decide)
  · exact resolve_file_set_size_and_coverage.2 2026 [rowNZL2020, rowNZL2021]
      ("ppp".data) ["NZL".data] (some [2020, 2099])
      (cleanManifest 2026 [rowNZL2020, rowNZL2021])
      (by decide) (by decide) (by decide) (by decide)

/-- C2, counterexample.  `'foo_1999_2020'` contains exactly one plausible
year token in the claim's sense — the substring `_2020` at offset 8 (the
token `_1999` is implausible, its year being below the 2000 epoch) — yet
`extract_year` raises (the regex finds two `_\d{4}` matches and the count
check precedes any plausibility check) and the name is classified
static. -/
theorem extract_year_unique_token_check_order :
    plausTokCount 2026 ("foo_1999_2020".data) = 1 ∧
    tokenAt (("foo_1999_2020".data).drop 8) = true ∧
    tokenYearAt (("foo_1999_2020".data).drop 8) = 2020 ∧
    extractYear 2026 ("foo_1999_2020".data) = .error () ∧
    looksAnnual 2026 ("foo_1999_2020".data) = false := by
  refine ⟨by decide, by decide, by decide, by decide, by decide⟩

/-- C2, amended: `extract_year` returns `y` exactly when the name contains
exactly one position where `_\d{4}` matches (counting *all* such
substring positions — matches of this pattern can never overlap, so the
position count coincides with the non-overlapping regex scan) and the year
at that position lies between 2000 and the current calendar year; a name
with zero or several `_\d{4}` positions fails even if exactly one of them
is plausible, because the uniqueness check runs before the plausibility
check; and the `is_annual` classification holds exactly when
`extract_year` succeeds. -/
theorem extract_year_scan_characterisation :
    ∀ (now : Nat) (name : List Char) (y : Nat),
      (extractYear now name = .ok y ↔
        tokCount name = 1 ∧ ∃ p, tokenAt (name.drop p) = true ∧
          tokenYearAt (name.drop p) = y ∧ firstYear ≤ y ∧ y ≤ now) ∧
      (looksAnnual now name = true ↔ ∃ y', extractYear now name = .ok y') :=
  fun now name y => ⟨extractYear_ok_iff now name y, looksAnnual_iff now name⟩

/-- C3, counterexample.  The claim says every validated `download` call
raises the unbound-name error and none can ever return the promised list.
But Python resolves a comprehension-body name only when an iteration runs:
the validated query `('ppp', ['NZL'], years=[])` resolves to an *empty*
file set, so line 103 evaluates to `[]` without ever looking up
`build_local_fname`, `pqdm` maps over an empty argument list, and
`download` returns `sorted([]) = []` — a normal return of the promised
(empty) list. -/
theorem download_empty_resolution_returns :
    filterGlobalManifest 2026 [rowNZL2020] ("ppp".data) ["NZL".data] (some []) =
      .ok [] ∧
    downloadModel 2026 [rowNZL2020] ("ppp".data) ["NZL".data] (some []) =
      ⟨.returned [], []⟩ ∧
    (downloadModel 2026 [rowNZL2020] ("ppp".data) ["NZL".data]
        (some [])).outcome ≠ .nameError := by
  refine ⟨by decide, by decide, by decide⟩

/-- C3, amended: in `download.py` the class attribute `_build_local_fname`
exists but the bare name `build_local_fname` used on line 103 resolves in
none of the scopes Python consults there.  Since the comprehension body
runs once per resolved entry, every validated call whose resolved file set
is *nonempty* hits the `NameError` with no raster transfer started, while
a validated call whose resolved set is empty returns the empty list
without the lookup ever happening; hence no call to `download` can ever
return a nonempty list of local paths. -/
theorem download_unbound_name :
    ("_build_local_fname" ∈ worldPopDownloaderAttrs ∧
      resolvesName "build_local_fname" = false) ∧
    (∀ (now : Nat) (rows : List RawRow) (p : List Char)
        (isos : List (List Char)) (years : Option (List Nat)) (mdf : List Entry),
      filterGlobalManifest now rows p isos years = .ok mdf → mdf ≠ [] →
        downloadModel now rows p isos years = ⟨.nameError, []⟩) ∧
    (∀ (now : Nat) (rows : List RawRow) (p : List Char)
        (isos : List (List Char)) (years : Option (List Nat)),
      filterGlobalManifest now rows p isos years = .ok [] →
        downloadModel now rows p isos years = ⟨.returned [], []⟩) ∧
    (∀ (now : Nat) (rows : List RawRow) (p : List Char)
        (isos : List (List Char)) (years : Option (List Nat))
        (paths : List (List Char)), paths ≠ [] →
      (downloadModel now rows p isos years).outcome ≠ .returned paths) := by
  refine ⟨⟨by decide, by decide⟩, ?_, ?_, ?_⟩
  · intro now rows p isos years mdf h hne
    simp only [downloadModel, h]
    rw [if_neg hne, if_neg (by decide)]
  · intro now rows p isos years h
    simp only [downloadModel, h]
    simp
  · intro now rows p isos years paths hpne
    unfold downloadModel
    rcases h : filterGlobalManifest now rows p isos years with e | mdf
    · simp
    · have hres : resolvesName "build_local_fname" = false := by decide
      by_cases hm : mdf = []
      · simp only [hm, if_true]
        intro hc
        have hcp : ([] : List (List Char)) = paths := by simpa using hc
        exact hpne hcp.symm
      · simp only [if_neg hm, hres]
        simp

/-- C3, witness: a concrete validated query with a nonempty resolved set
on which `download` reaches line 103 and fails with the `NameError`,
transferring nothing; and a concrete call on which the empty-resolution
branch of the amended claim applies. -/
theorem download_unbound_name_witness :
    downloadModel 2026 [rowNZL2020] ("ppp".data) ["NZL".data] (some [2020]) =
      ⟨.nameError, []⟩ ∧
    downloadModel 2026 [rowNZL2021] ("ppp".data) ["NZL".data] (some []) =
      ⟨.returned [], []⟩ := by
  constructor
  · exact download_unbound_name.2.1 2026 [rowNZL2020] ("ppp".data) ["NZL".data]
      (some [2020]) (cleanManifest 2026 [rowNZL2020]) (by decide) (by decide)
  · exact download_unbound_name.2.2.1 2026 [rowNZL2021] ("ppp".data)
      ["NZL".data] (some []) (by decide)

/-- C4, counterexample.  The claim asserts a fixed attempt ceiling after
which the HTTP error propagates for that file.  The decorator on
`_download_file` is `backoff.on_exception(backoff.expo, HTTPError)` with
no `max_tries`, so no such ceiling exists: for every candidate ceiling
`N`, a file whose first `N` attempts all raise `HTTPError` is still
retried and succeeds on the next attempt instead of raising. -/
theorem download_retry_no_attempt_ceiling :
    ¬ ∃ N : Nat, ∀ rest : List Attempt, ∃ k,
      downloadFileRetry (List.replicate N .httpError ++ rest) = .raised k := by
  rintro ⟨N, hN⟩
  obtain ⟨k, hk⟩ := hN [.succeed]
  rw [downloadFileRetry, backoff_none_http_run] at hk
  simp [backoffOnException] at hk

/-- C4, amended: failed HTTP-layer attempts are retried with exponential
backoff *indefinitely* — after any number `k` of consecutive `HTTPError`
attempts a subsequent success still returns normally (attempt `k + 1`), so
a persistently failing file never propagates an error by retry
exhaustion — while a non-HTTP error is never retried and propagates at
the attempt on which it occurs. -/
theorem download_retry_policy :
    (∀ k : Nat,
      downloadFileRetry (List.replicate k .httpError ++ [.succeed]) =
        .success (k + 1)) ∧
    (∀ (k : Nat) (rest : List Attempt),
      downloadFileRetry (List.replicate k .httpError ++ .otherError :: rest) =
        .raised (k + 1)) := by
  constructor
  · intro k
    rw [downloadFileRetry, backoff_none_http_run]
    show backoffOnException none [.succeed] (0 + k) = .success (k + 1)
    rw [backoffOnException]
    congr 1
    omega
  · intro k rest
    rw [downloadFileRetry, backoff_none_http_run]
    show backoffOnException none (.otherError :: rest) (0 + k) = .raised (k + 1)
    rw [backoffOnException]
    congr 1
    omega

/-- C5, counterexample.  Hash-then-table persistence is not atomic:
starting from a consistent local state (hash and table both from catalog
`0`), a refresh against a remote catalog `1` whose parse fails leaves the
state with the *new* hash paired with the *stale* table, which no raw
catalog can explain — contradicting the claim that the stored hash and
table always describe the same catalog version. -/
theorem manifest_refresh_not_atomic :
    (buildGlobalManifest (fun r => r) cexParse (fun t => t) false
        ⟨1, 1⟩ ⟨some 0, some 0⟩).1 = ⟨some 1, some 0⟩ ∧
    hashMatchesTable (fun r => r) cexParse (fun t => t) ⟨some 0, some 0⟩ ∧
    ¬ hashMatchesTable (fun r => r) cexParse (fun t => t) ⟨some 1, some 0⟩ := by
  refine ⟨by decide, ⟨0, 0, rfl, by decide, rfl⟩, ?_⟩
  rintro ⟨raw, parsed, hraw, hparse, hclean⟩
  have hr : raw = 1 := hraw
  rw [hr] at hparse
  simp [cexParse] at hparse

/-- C5, amended: `build_global_manifest` persists the new hash *before*
parsing the catalog.  When the local state is current the refresh changes
nothing; when the catalog is re-downloaded and parses, both hash and table
are updated together; but when the parse fails, the refresh propagates the
error with the new hash already written and the stale table untouched —
so a half-failed refresh pairs a new hash with an old table. -/
theorem manifest_refresh_hash_first {Raw Table : Type} (hashFn : Raw → Nat)
    (parse : Raw → Except Unit Raw) (clean : Raw → Table)
    (remote : RemoteCatalog Raw) (s : ManifestStoreState Table)
    (overwrite : Bool) :
    (s.localTable.isSome ∧ ¬overwrite ∧ s.localHash = some remote.hashFile →
      buildGlobalManifest hashFn parse clean overwrite remote s = (s, .ok ())) ∧
    (∀ parsed,
      ¬ (s.localTable.isSome ∧ ¬overwrite ∧ s.localHash = some remote.hashFile) →
      parse remote.rawCsv = .ok parsed →
      buildGlobalManifest hashFn parse clean overwrite remote s =
        (⟨some (hashFn remote.rawCsv), some (clean parsed)⟩, .ok ())) ∧
    (¬ (s.localTable.isSome ∧ ¬overwrite ∧ s.localHash = some remote.hashFile) →
      parse remote.rawCsv = .error () →
      buildGlobalManifest hashFn parse clean overwrite remote s =
        (⟨some (hashFn remote.rawCsv), s.localTable⟩, .error ())) := by
  refine ⟨?_, ?_, ?_⟩
  · intro h
    rw [buildGlobalManifest, if_pos h]
  · intro parsed h hp
    rw [buildGlobalManifest, if_neg h, hp]
  · intro h hp
    rw [buildGlobalManifest, if_neg h, hp]

/-- C5, witness: the three refresh paths at concrete states — an
up-to-date store left unchanged, a successful rebuild updating hash and
table together, and a failed parse leaving the new hash with the stale
table. -/
theorem manifest_refresh_hash_first_witness :
    buildGlobalManifest (fun r => r) cexParse (fun t => t) false
        ⟨5, 2⟩ ⟨some 2, some 2⟩ = (⟨some 2, some 2⟩, .ok ()) ∧
    buildGlobalManifest (fun r => r) cexParse (fun t => t) false
        ⟨0, 0⟩ ⟨some 2, some 2⟩ = (⟨some 0, some 0⟩, .ok ()) ∧
    buildGlobalManifest (fun r => r) cexParse (fun t => t) false
        ⟨1, 1⟩ ⟨some 0, some 0⟩ = (⟨some 1, some 0⟩, .error ()) := by
  refine ⟨?_, ?_, ?_⟩
  · exact (manifest_refresh_hash_first (fun r => r) cexParse (fun t => t)
      ⟨5, 2⟩ ⟨some 2, some 2⟩ false).1 (by decide)
  · exact (manifest_refresh_hash_first (fun r => r) cexParse (fun t => t)
      ⟨0, 0⟩ ⟨some 2, some 2⟩ false).2.1 0 (by decide) (by decide)
  · exact (manifest_refresh_hash_first (fun r => r) cexParse (fun t => t)
      ⟨1, 1⟩ ⟨some 0, some 0⟩ false).2.2 (by decide) (by decide)

/-- C6, counterexample.  For the annual name
`'some_dataset_2020_constrained'` (the very name used by the repository's
own `test_year_stripping`), `_strip_year` removes the interior `_2020` in
place, and re-appending `_2020` moves the token to the end:
`'some_dataset_constrained_2020' ≠ 'some_dataset_2020_constrained'`. -/
theorem strip_year_mid_token_roundtrip_fails :
    extractYear 2026 ("some_dataset_2020_constrained".data) = .ok 2020 ∧
    stripYear 2026 ("some_dataset_2020_constrained".data) =
      .ok ("some_dataset_constrained".data) ∧
    "some_dataset_constrained".data ++ '_' :: yearChars 2020 ≠
      "some_dataset_2020_constrained".data := by
  refine ⟨by decide, by decide, by decide⟩

/-- C6, amended: the strip/re-append round trip holds exactly for annual
names whose year token is *terminal*: for any stem with no `_\d{4}` token
and any plausible year `y`, the name `stem_y` extracts to `y`, strips back
to `stem`, and re-appending `_y` reconstructs the name; for an interior
token the strip removes it in place and re-appending cannot restore it. -/
theorem strip_year_roundtrip_for_trailing_token (now y : Nat) (stem : List Char)
    (h0 : tokCount stem = 0) (h1 : firstYear ≤ y) (h2 : y ≤ now)
    (h3 : y ≤ 9999) :
    extractYear now (stem ++ '_' :: yearChars y) = .ok y ∧
    (stripYear now (stem ++ '_' :: yearChars y)).map
        (fun s => s ++ '_' :: yearChars y) =
      .ok (stem ++ '_' :: yearChars y) := by
  have hscan := scan_append_year (y := y) stem h0
  have hpd : parseDigits (('_' :: yearChars y).drop 1) = y := by
    simpa using parse_yearChars h3
  have hex : extractYear now (stem ++ '_' :: yearChars y) = .ok y := by
    unfold extractYear
    rw [hscan]
    show (if parseDigits (('_' :: yearChars y).drop 1) < firstYear ∨
          now < parseDigits (('_' :: yearChars y).drop 1)
        then (Except.error () : Except Unit Nat)
        else .ok (parseDigits (('_' :: yearChars y).drop 1))) =
      .ok y
    rw [hpd, if_neg (by omega)]
  have hstrip : stripYear now (stem ++ '_' :: yearChars y) = .ok stem := by
    unfold stripYear
    rw [hex]
    show Except.ok (removeTok ('_' :: yearChars y) (stem ++ '_' :: yearChars y) 0) =
      .ok stem
    rw [remove_append_year stem h0]
  refine ⟨hex, ?_⟩
  rw [hstrip]
  rfl

/-- C6, witness: the round trip at the concrete trailing-token name
`'some_dataset_2020'`. -/
theorem strip_year_roundtrip_witness :
    extractYear 2026 ("some_dataset".data ++ '_' :: yearChars 2020) = .ok 2020 ∧
    (stripYear 2026 ("some_dataset".data ++ '_' :: yearChars 2020)).map
        (fun s => s ++ '_' :: yearChars 2020) =
      .ok ("some_dataset".data ++ '_' :: yearChars 2020) :=
  strip_year_roundtrip_for_trailing_token 2026 2020 ("some_dataset".data)
    (by decide) (by decide) (by decide) (by decide)

/-- C7, counterexample.  The scenario call
`filter_global_manifest('NZL', 'ppp_2020', years=2020)` binds `'NZL'` to
`product_name` and `'ppp_2020'` to the country-code list (the function
signature is `(product_name, iso3_codes, years)`), and the country check
runs *before* the year-token check, so the call fails with the
unknown-country error for `'PPP_2020'`, not with `InvalidQuery`. -/
theorem swapped_scenario_unknown_country :
    filterGlobalManifest 2026 [rowNZL2020] ("NZL".data) ["ppp_2020".data]
        (some [2020]) = .error (.unknownCountry ["PPP_2020".data]) ∧
    filterGlobalManifest 2026 [rowNZL2020] ("NZL".data) ["ppp_2020".data]
        (some [2020]) ≠ .error .invalidQuery := by
  refine ⟨by decide, by decide⟩

/-- C7, amended: once the requested country codes validate, any
`product_name` on which `extract_year` succeeds (an embeddable year
token) makes resolution fail with the `InvalidQuery` error whose message
names the separate `years` parameter — but the check runs after country
validation, so the literal scenario call (with its arguments bound per
the signature) fails with `UnknownCountry` instead. -/
theorem year_token_in_product_name_rejected
    (now : Nat) (rows : List RawRow) (p : List Char) (isos : List (List Char))
    (years : Option (List Nat)) (y : Nat) (mdf : List Entry)
    (hload : loadGlobalManifest now rows = .ok mdf)
    (hisos : ∀ i ∈ isos.map upperStr, i ∈ mdf.map Entry.iso3)
    (hex : extractYear now p = .ok y) :
    filterGlobalManifest now rows p isos years = .error .invalidQuery := by
  rw [filter_eq_of_load_ok hload]
  exact filterChecked_error_of_check hisos (check_some_of_year hex years)

/-- C7, witness: with the arguments in signature order
(`product_name='ppp_2020'`, countries `['NZL']`) the resolver does fail
with `InvalidQuery`. -/
theorem year_token_in_product_name_witness :
    filterGlobalManifest 2026 [rowNZL2020] ("ppp_2020".data) ["NZL".data]
        (some [2020]) = .error .invalidQuery :=
  year_token_in_product_name_rejected 2026 [rowNZL2020] ("ppp_2020".data)
    ["NZL".data] (some [2020]) 2020 (cleanManifest 2026 [rowNZL2020])
    (by decide) (by decide) (by decide)

/-- C8: for a merge group whose rasters all read successfully, the merge
succeeds exactly when all present `_FillValue` values agree and all
present `scale_factor` values agree; any metadata mismatch error names an
attribute on which two rasters genuinely disagree (`_FillValue` or
`scale_factor`, whose messages both suggest re-reading with
`mask_and_scale`); and any disagreement on either attribute makes the
merge fail with such an error. -/
theorem merge_metadata_consistency (rs : List Raster)
    (hread : ∀ r ∈ rs, r.readOk = true) :
    ((¬ disagreeOn Raster.fillValue rs ∧ ¬ disagreeOn Raster.scaleFactor rs) ↔
      mergeRasters rs = .ok ()) ∧
    (∀ a, mergeRasters rs = .error (.inconsistent a) →
      (a = fillAttr ∧ disagreeOn Raster.fillValue rs) ∨
      (a = scaleAttr ∧ disagreeOn Raster.scaleFactor rs)) ∧
    ((disagreeOn Raster.fillValue rs ∨ disagreeOn Raster.scaleFactor rs) →
      ∃ a, mergeRasters rs = .error (.inconsistent a)) := by
  have hiff : (¬ disagreeOn Raster.fillValue rs ∧
      ¬ disagreeOn Raster.scaleFactor rs) ↔ mergeRasters rs = .ok () := by
    constructor
    · rintro ⟨h1, h2⟩
      exact mergeLoop_ok_of_agree rs none none hread
        (agreeFrom_none_of_not_disagree h1) (agreeFrom_none_of_not_disagree h2)
    · intro h
      obtain ⟨⟨hf, _⟩, hs, _⟩ := mergeLoop_ok_sound rs none none h
      exact ⟨hf, hs⟩
  refine ⟨hiff, ?_, ?_⟩
  · intro a h
    rcases mergeLoop_inconsistent_attr rs none none a h with rfl | rfl
    · refine Or.inl ⟨rfl, ?_⟩
      rcases mergeLoop_fill_sound rs none none h with hd | ⟨r, _, v, w, _, hw, _⟩
      · exact hd
      · exact absurd hw (by simp)
    · refine Or.inr ⟨rfl, ?_⟩
      rcases mergeLoop_scale_sound rs none none h with hd | ⟨r, _, v, w, _, hw, _⟩
      · exact hd
      · exact absurd hw (by simp)
  · intro hd
    rcases mergeLoop_forms rs none none hread with hok | ⟨a, ha⟩
    · exfalso
      rcases hd with h | h
      · exact (hiff.mpr hok).1 h
      · exact (hiff.mpr hok).2 h
    · exact ⟨a, ha⟩

/-- C8, witness: two readable rasters with fill values 1 and 2 make the
merge fail with a metadata-mismatch error. -/
theorem merge_metadata_consistency_witness :
    ∃ a, mergeRasters [⟨true, some 1, none⟩, ⟨true, some 2, none⟩] =
      .error (.inconsistent a) :=
  (merge_metadata_consistency [⟨true, some 1, none⟩, ⟨true, some 2, none⟩]
      (by decide)).2.2
    (Or.inl ⟨⟨true, some 1, none⟩, by decide, ⟨true, some 2, none⟩, by decide,
      1, 2, rfl, rfl, by decide⟩)

/-- C9, counterexample.  A catalog built from the single raw dataset name
`'_20_202021'` yields the annual-only product `'_2021'` (the token
`_2020` is stripped in place).  Resolving that product without `years`
fails with the `InvalidQuery` year-identifier error — `extract_year`
succeeds on the product name itself and that check precedes the category
check — not with the static-product `UnknownProduct` message the claim
requires. -/
theorem annual_only_category_mismatch_fails :
    ("_2021".data ∈ annualProductNames (cleanManifest 2026 [rowNZLWeird])) ∧
    ("_2021".data ∉ staticProductNames (cleanManifest 2026 [rowNZLWeird])) ∧
    filterGlobalManifest 2026 [rowNZLWeird] ("_2021".data) ["NZL".data] none =
      .error .invalidQuery ∧
    filterGlobalManifest 2026 [rowNZLWeird] ("_2021".data) ["NZL".data] none ≠
      .error .unknownProductStatic := by
  refine ⟨by decide, by decide, by decide, by decide⟩

/-- C9, amended: with valid country codes, a product existing only in the
static category queried *with* `years` always fails with the
annual-message `UnknownProduct` error (static product names never carry a
year token, by the manifest derivation itself); and a product existing
only in the annual category queried *without* `years` fails with the
static-message `UnknownProduct` error provided its stripped name does not
itself contain an embeddable year token — a pathological stripped name
that still parses as a year fails with `InvalidQuery` first. -/
theorem category_mismatch_errors :
    (∀ (now : Nat) (rows : List RawRow) (p : List Char)
        (isos : List (List Char)) (ys : List Nat) (mdf : List Entry),
      loadGlobalManifest now rows = .ok mdf →
      (∀ i ∈ isos.map upperStr, i ∈ mdf.map Entry.iso3) →
      p ∈ staticProductNames mdf → p ∉ annualProductNames mdf →
      filterGlobalManifest now rows p isos (some ys) =
        .error .unknownProductAnnual) ∧
    (∀ (now : Nat) (rows : List RawRow) (p : List Char)
        (isos : List (List Char)) (mdf : List Entry),
      loadGlobalManifest now rows = .ok mdf →
      (∀ i ∈ isos.map upperStr, i ∈ mdf.map Entry.iso3) →
      p ∈ annualProductNames mdf → p ∉ staticProductNames mdf →
      extractYear now p = .error () →
      filterGlobalManifest now rows p isos none =
        .error .unknownProductStatic) := by
  constructor
  · intro now rows p isos ys mdf hload hisos hst han
    have hex := extractYear_error_of_static hload hst
    rw [filter_eq_of_load_ok hload]
    exact filterChecked_error_of_check hisos (check_annual_mismatch hex han)
  · intro now rows p isos mdf hload hisos han hst hex
    rw [filter_eq_of_load_ok hload]
    exact filterChecked_error_of_check hisos (check_static_mismatch hex hst)

/-- C9, witness: the static-only product `'srtm_slope_100m'` queried with
a year fails with the annual-message error, and the annual-only product
`'ppp'` queried without years fails with the static-message error. -/
theorem category_mismatch_errors_witness :
    filterGlobalManifest 2026 [rowNZLStatic] ("srtm_slope_100m".data)
        ["NZL".data] (some [2020]) = .error .unknownProductAnnual ∧
    filterGlobalManifest 2026 [rowNZL2020] ("ppp".data) ["NZL".data] none =
      .error .unknownProductStatic := by
  constructor
  · exact category_mismatch_errors.1 2026 [rowNZLStatic]
      ("srtm_slope_100m".data) ["NZL".data] [2020]
      (cleanManifest 2026 [rowNZLStatic])
      (by decide) (by decide) (by decide) (by decide)
  · exact category_mismatch_errors.2 2026 [rowNZL2020] ("ppp".data)
      ["NZL".data] (cleanManifest 2026 [rowNZL2020])
      (by decide) (by decide) (by decide) (by decide) (by decide)

/-- C10: `wp_raster` forwards `dry_run=download_dry_run` to
`WorldPopDownloader.download`, whose parameter list has no `dry_run`, so a
dry-run request raises `TypeError` at the call site instead of resolving
the file set and returning `None` as documented. -/
theorem dry_run_call_type_error :
    ("dry_run" ∉ downloadParams) ∧
    wpRasterModel 2026 [rowNZL2020] ("ppp".data) ["NZL".data] (some [2020])
        true = .error .typeError := by
  refine ⟨by decide, by decide⟩

end WorldPoppy
